import Mathlib

/-!
Shallow embedding of `src/api_clients.py`: two vision-language query
functions (`get_openai_output`, `get_gemini_output`) and the image helper
`pil2base64`.  External effects (environment reads, vendor SDK network
calls, the module-global `genai` configuration) are made explicit: each
function takes a "world" of oracles and returns its result together with
the trace of outbound network calls it performed (and, for the Gemini
side, the final module-global configuration state).
-/

/-- Python exception values as raised by `api_clients.py`.  The spec names
them ConfigurationError / UnsupportedModelError / TransportError; the
source uses `EnvironmentError`, the explicitly raised `LookupError` (which
carries, besides the formatted message, the list of available models
embedded in that message), `RuntimeError`, and — on the Provider-A
subscript `response.choices[0]` of an empty choice list — `IndexError`,
which in Python is a subclass of `LookupError`. -/
inductive PyError where
  | environmentError (msg : String)
  | lookupError (msg : String) (available : List String)
  | indexError (msg : String)
  | runtimeError (msg : String)
deriving Repr, DecidableEq

/-- Python `str(e)` on one of the exception kinds: the message. -/
def PyError.message : PyError → String
  | .environmentError m => m
  | .lookupError m _ => m
  | .indexError m => m
  | .runtimeError m => m

/-- Whether the exception is an instance of the Python class
`LookupError`: true for the explicitly raised `LookupError` and for
`IndexError`, its subclass.  The `except LookupError` clauses of
`api_clients.py` (lines 92-93 and 141-142) catch exactly these. -/
def PyError.isLookup : PyError → Bool
  | .lookupError _ _ => true
  | .indexError _ => true
  | _ => false

instance {e a : Type} [DecidableEq e] [DecidableEq a] : DecidableEq (Except e a) :=
  fun x y =>
    match x, y with
    | .ok v, .ok w => decidable_of_iff (v = w) (by simp)
    | .error v, .error w => decidable_of_iff (v = w) (by simp)
    | .ok _, .error _ => isFalse (by simp)
    | .error _, .ok _ => isFalse (by simp)

/-- Python repr of a string (as interpolated into an f-string inside a
list), assuming no quote or escape characters in the string. -/
def pyRepr (s : String) : String := "\x27" ++ s ++ "\x27"

/-- Python str() of a list of strings, as produced by an f-string:
for example [\x27m1\x27, \x27m2\x27]. -/
def pyStrList (xs : List String) : String :=
  "[" ++ String.intercalate ", " (xs.map pyRepr) ++ "]"

/-- Message of the LookupError raised on an unsupported model
(`api_clients.py` lines 61 and 131). -/
def unsupportedModelMsg (model : String) (supported_models : List String) : String :=
  "Model " ++ pyRepr model ++ " is not supported. Available models: " ++
    pyStrList supported_models

/-! ## Base64 (Python `base64.b64encode`, standard alphabet, `=` padding)

Bytes are natural numbers; every byte produced or consumed is `< 256`. -/

/-- Standard base64 alphabet, as used by `base64.b64encode`. -/
def b64Alphabet : List Char :=
  "ABCDEFGHIJKLMNOPQRSTUVWXYZabcdefghijklmnopqrstuvwxyz0123456789+/".data

/-- Character of a six-bit value. -/
def b64Char (n : Nat) : Char := b64Alphabet.getD n (Char.ofNat 65)

/-- Six-bit value of an alphabet character, none for a non-alphabet one. -/
def b64Val (c : Char) : Option Nat := b64Alphabet.indexOf? c

/-- Base64 encoding of a byte list, three bytes to four characters, with
`=` padding on a final quantum of one or two bytes. -/
def b64EncodeBytes : List Nat → List Char
  | [] => []
  | [a] => [b64Char (a / 4), b64Char (a % 4 * 16), Char.ofNat 61, Char.ofNat 61]
  | [a, b] =>
      [b64Char (a / 4), b64Char (a % 4 * 16 + b / 16), b64Char (b % 16 * 4),
        Char.ofNat 61]
  | a :: b :: c :: rest =>
      b64Char (a / 4) :: b64Char (a % 4 * 16 + b / 16) ::
        b64Char (b % 16 * 4 + c / 64) :: b64Char (c % 64) :: b64EncodeBytes rest

/-- Base64 decoding: four characters back to three bytes, honouring the
`=` padding of the final quantum. -/
def b64DecodeChars : List Char → Option (List Nat)
  | [] => some []
  | w :: x :: y :: z :: rest =>
      match b64Val w, b64Val x with
      | some vw, some vx =>
        if z = Char.ofNat 61 then
          if rest = [] then
            if y = Char.ofNat 61 then
              some [vw * 4 + vx / 16]
            else
              match b64Val y with
              | some vy => some [vw * 4 + vx / 16, vx % 16 * 16 + vy / 4]
              | none => none
          else none
        else
          match b64Val y, b64Val z with
          | some vy, some vz =>
            match b64DecodeChars rest with
            | some bs =>
                some ((vw * 4 + vx / 16) :: (vx % 16 * 16 + vy / 4) ::
                  (vy % 4 * 64 + vz) :: bs)
            | none => none
          | _, _ => none
      | _, _ => none
  | _ => none

/-- String form of the base64 encoding, as returned by
`base64.b64encode(data).decode(\x27utf-8\x27)`. -/
def b64encodeString (bs : List Nat) : String := String.mk (b64EncodeBytes bs)

/-- Decoding of a base64 string back to bytes. -/
def b64decodeString (s : String) : Option (List Nat) := b64DecodeChars s.data

/-! ## Bitmaps and the PNG layer

The source serializes a PIL image with `pil_image.save(stream, format="PNG")`;
the PNG codec itself is vendor code (PIL), not part of this repository. -/

/-- In-memory bitmap: dimensions and a flat row-major list of RGB byte
values (three bytes per pixel). -/
structure Bitmap where
  width : Nat
  height : Nat
  pixels : List Nat
deriving Repr, DecidableEq

/-- Validity of a bitmap: 32-bit dimensions, byte-valued pixels, and a
pixel buffer of exactly width * height RGB triples. -/
def Bitmap.Valid (b : Bitmap) : Prop :=
  b.width < 4294967296 ∧ b.height < 4294967296 ∧
    b.pixels.length = b.width * b.height * 3 ∧ ∀ x ∈ b.pixels, x < 256

instance (b : Bitmap) : Decidable b.Valid := by
  unfold Bitmap.Valid; infer_instance

/-- Eight signature bytes that begin every PNG stream. -/
def pngSignature : List Nat := [137, 80, 78, 71, 13, 10, 26, 10]

/-- Big-endian four-byte encoding of a 32-bit value. -/
def be32 (n : Nat) : List Nat :=
  [n / 16777216 % 256, n / 65536 % 256, n / 256 % 256, n % 256]

/-- Modelled from the spec: PIL's PNG serializer (`pil_image.save` with
`format="PNG"`, vendor code absent from the repository) is modelled as a
lossless byte serialization of the bitmap — the PNG signature, the
big-endian dimensions, then the raw pixel bytes — which is what the spec
relies on: PNG is a lossless pixel-identical encoding. -/
def pngSave (b : Bitmap) : List Nat :=
  pngSignature ++ be32 b.width ++ be32 b.height ++ b.pixels

/-- Modelled from the spec: the PNG decoder matching `pngSave`, recovering
the bitmap pixel-identically from the serialized bytes. -/
def pngLoad : List Nat → Option Bitmap
  | 137 :: 80 :: 78 :: 71 :: 13 :: 10 :: 26 :: 10 ::
      w1 :: w2 :: w3 :: w4 :: h1 :: h2 :: h3 :: h4 :: rest =>
    let w := w1 * 16777216 + w2 * 65536 + w3 * 256 + w4
    let h := h1 * 16777216 + h2 * 65536 + h3 * 256 + h4
    if w1 < 256 ∧ w2 < 256 ∧ w3 < 256 ∧ w4 < 256 ∧
        h1 < 256 ∧ h2 < 256 ∧ h3 < 256 ∧ h4 < 256 ∧
        rest.length = w * h * 3 ∧ ∀ x ∈ rest, x < 256 then
      some ⟨w, h, rest⟩
    else none
  | _ => none

/-- PIL image object: either a bitmap that serializes, or a corrupt or
unsupported image whose `save` raises an exception with the given
message. -/
inductive PILImage where
  | valid (b : Bitmap)
  | corrupt (errMsg : String)
deriving Repr, DecidableEq

/-- Embedding of `pil2base64` (`api_clients.py` lines 10-26): serialize
the image to PNG bytes in a memory stream, base64-encode them, decode to
a utf-8 string; any exception is wrapped into
RuntimeError("Failed to convert image to base64: ..."). -/
def pil2base64 : PILImage → Except PyError String
  | .valid b => .ok (b64encodeString (pngSave b))
  | .corrupt e => .error (.runtimeError ("Failed to convert image to base64: " ++ e))

/-! ## Provider A: OpenAI-style query -/

/-- One content part of the chat request: text, or an image addressed by
a (data-URI) url. -/
inductive ContentPart where
  | text (text : String)
  | imagePart (url : String)
deriving Repr, DecidableEq

/-- One message of the chat request. -/
structure ChatMessage where
  role : String
  content : List ContentPart
deriving Repr, DecidableEq

/-- Request submitted by `client.chat.completions.create`. -/
structure ChatRequest where
  model : String
  messages : List ChatMessage
  max_tokens : Nat
deriving Repr, DecidableEq

/-- Message object of one choice of the chat response; `content` is
`None` or a string. -/
structure ChatChoiceMessage where
  content : Option String
deriving Repr, DecidableEq

/-- One choice of the chat response. -/
structure ChatChoice where
  message : ChatChoiceMessage
deriving Repr, DecidableEq

/-- Chat-completion response: a list of choices. -/
structure ChatResponse where
  choices : List ChatChoice
deriving Repr, DecidableEq

/-- World of externals read by `get_openai_output`: the process
environment, and the two vendor endpoints.  A `.error m` oracle result
models the vendor call raising a (non-LookupError) exception with
message `m`. -/
structure OpenAIWorld where
  env : String → Option String
  listModelsData : Except String (List String)
  chatCreate : ChatRequest → Except String ChatResponse

/-- Outbound network call of a Provider-A invocation. -/
inductive OpenAICall where
  | listModels
  | chatCreate (req : ChatRequest)
deriving Repr, DecidableEq

/-- Message of the EnvironmentError of `get_openai_output` line 50. -/
def openaiKeyMissingMsg : String :=
  "OpenAI API key is missing. Set \x27OPENAI_API_KEY\x27 in environment variables."

/-- Request built by `get_openai_output` lines 68-86: one user-role turn
whose content is the text part then the image part, with `max_tokens`. -/
def openaiRequest (model prompt image_url : String) (max_tokens : Nat) : ChatRequest :=
  ⟨model, [⟨"user", [ContentPart.text prompt, ContentPart.imagePart image_url]⟩],
    max_tokens⟩

/-- Generate-content step of `get_openai_output` (`api_clients.py`
lines 68-90): issue `client.chat.completions.create(req)` and extract
`response.choices[0].message.content`.  A raised vendor exception is
wrapped by the catch-all handler of lines 95-96; the IndexError of an
empty choice list, however, is an instance of `LookupError`, so the
`except LookupError as e: raise e` clause of lines 92-93 re-raises it
unwrapped. -/
def openaiGenerate (w : OpenAIWorld) (req : ChatRequest) :
    Except PyError (Option String) × List OpenAICall :=
  match w.chatCreate req with
  | .error e =>
      (.error (.runtimeError ("Failed to generate OpenAI output: " ++ e)),
        [.listModels, .chatCreate req])
  | .ok response =>
    match response.choices with
    | [] =>
        (.error (.indexError "list index out of range"),
          [.listModels, .chatCreate req])
    | choice :: _ => (.ok choice.message.content, [.listModels, .chatCreate req])

/-- Embedding of `get_openai_output` (`api_clients.py` lines 29-96).
Returns the Python result (the extracted `content`, possibly `None`) or
the raised exception, paired with the trace of outbound network calls in
order.  The `try` block wraps every exception except `LookupError` into
RuntimeError("Failed to generate OpenAI output: ..."). -/
def get_openai_output (w : OpenAIWorld) (pil_image : PILImage) (prompt : String)
    (model : String) (max_tokens : Nat := 300) :
    Except PyError (Option String) × List OpenAICall :=
  match w.env "OPENAI_API_KEY" with
  | none => (.error (.environmentError openaiKeyMissingMsg), [])
  | some api_key =>
    if api_key = "" then (.error (.environmentError openaiKeyMissingMsg), [])
    else
      match w.listModelsData with
      | .error e =>
          (.error (.runtimeError ("Failed to generate OpenAI output: " ++ e)),
            [.listModels])
      | .ok supported_models =>
        if model ∉ supported_models then
          (.error (.lookupError (unsupportedModelMsg model supported_models)
            supported_models), [.listModels])
        else
          match pil2base64 pil_image with
          | .error err =>
              (.error (.runtimeError
                ("Failed to generate OpenAI output: " ++ err.message)),
                [.listModels])
          | .ok image_base64 =>
              openaiGenerate w (openaiRequest model prompt
                ("data:image/jpeg;base64," ++ image_base64) max_tokens)

/-! ## Provider B: Gemini-style query -/

/-- Module-global configuration installed by `genai.configure`: the API
key and the transport.  `genai.list_models` and `GenerativeModel` read
this state rather than taking the key as an argument. -/
structure GenaiConfig where
  api_key : String
  transport : String
deriving Repr, DecidableEq

/-- World of externals read by `get_gemini_output`: the process
environment and the two vendor endpoints, both of which read the
module-global configuration installed by `genai.configure`. -/
structure GeminiWorld where
  env : String → Option String
  listModels : GenaiConfig → Except String (List String)
  generateContent : GenaiConfig → String → String → PILImage → Except String String

/-- Outbound network call of a Provider-B invocation. -/
inductive GeminiCall where
  | listModels
  | generateContent (model : String) (prompt : String) (image : PILImage)
deriving Repr, DecidableEq

/-- Message of the EnvironmentError of `get_gemini_output` line 120. -/
def geminiKeyMissingMsg : String :=
  "Google API key is missing. Set \x27GOOGLE_API_KEY\x27 in environment variables."

/-- Body of the `try` block of `get_gemini_output` (`api_clients.py`
lines 122-145) after `genai.configure` has installed `cfg` as the
module-global configuration: fetch the catalog, validate the model,
generate content, with `LookupError` re-raised and every other exception
wrapped into RuntimeError("Failed to generate Gemini output: ..."). -/
def geminiConfigured (w : GeminiWorld) (cfg : GenaiConfig) (pil_image : PILImage)
    (prompt : String) (model : String) :
    Except PyError String × Option GenaiConfig × List GeminiCall :=
  match w.listModels cfg with
  | .error e =>
      (.error (.runtimeError ("Failed to generate Gemini output: " ++ e)),
        some cfg, [.listModels])
  | .ok supported_models =>
    if model ∉ supported_models then
      (.error (.lookupError (unsupportedModelMsg model supported_models)
        supported_models), some cfg, [.listModels])
    else
      match w.generateContent cfg model prompt pil_image with
      | .error e =>
          (.error (.runtimeError ("Failed to generate Gemini output: " ++ e)),
            some cfg, [.listModels, .generateContent model prompt pil_image])
      | .ok output => (.ok output, some cfg,
          [.listModels, .generateContent model prompt pil_image])

/-- Embedding of `get_gemini_output` (`api_clients.py` lines 99-145).
`st` is the module-global `genai` configuration before the call; the
result carries the Python result or raised exception, the configuration
after the call (`genai.configure` overwrites it with the key from the
environment and the rest transport), and the trace of outbound network
calls. -/
def get_gemini_output (st : Option GenaiConfig) (w : GeminiWorld)
    (pil_image : PILImage) (prompt : String) (model : String) :
    Except PyError String × Option GenaiConfig × List GeminiCall :=
  match w.env "GOOGLE_API_KEY" with
  | none => (.error (.environmentError geminiKeyMissingMsg), st, [])
  | some api_key =>
    if api_key = "" then (.error (.environmentError geminiKeyMissingMsg), st, [])
    else geminiConfigured w ⟨api_key, "rest"⟩ pil_image prompt model

/-! ## Round-trip lemmas for the encoding layer -/

/-- Decoding a base64 character recovers the six-bit value it encodes. -/
theorem b64Val_b64Char : ∀ n < 64, b64Val (b64Char n) = some n := by decide

/-- No base64 alphabet character is the padding character. -/
theorem b64Char_ne_pad : ∀ n < 64, b64Char n ≠ Char.ofNat 61 := by decide

/-- Base64 decoding inverts base64 encoding on byte lists. -/
theorem b64_roundtrip (bs : List Nat) (h : ∀ x ∈ bs, x < 256) :
    b64DecodeChars (b64EncodeBytes bs) = some bs := by
  induction bs using b64EncodeBytes.induct with
  | case1 => rfl
  | case2 a =>
    have ha : a < 256 := h a (by simp)
    have hv1 := b64Val_b64Char (a / 4) (by omega)
    have hv2 := b64Val_b64Char (a % 4 * 16) (by omega)
    simp only [b64EncodeBytes, b64DecodeChars, hv1, hv2, if_pos rfl, if_true]
    have : a / 4 * 4 + a % 4 * 16 / 16 = a := by omega
    rw [this]
  | case3 a b =>
    have ha : a < 256 := h a (by simp)
    have hb : b < 256 := h b (by simp)
    have hv1 := b64Val_b64Char (a / 4) (by omega)
    have hv2 := b64Val_b64Char (a % 4 * 16 + b / 16) (by omega)
    have hv3 := b64Val_b64Char (b % 16 * 4) (by omega)
    have hne := b64Char_ne_pad (b % 16 * 4) (by omega)
    simp only [b64EncodeBytes, b64DecodeChars, hv1, hv2, hv3, if_pos rfl,
      if_neg hne, if_true]
    have e1 : a / 4 * 4 + (a % 4 * 16 + b / 16) / 16 = a := by omega
    have e2 : (a % 4 * 16 + b / 16) % 16 * 16 + b % 16 * 4 / 4 = b := by omega
    rw [e1, e2]
  | case4 a b c rest ih =>
    have ha : a < 256 := h a (by simp)
    have hb : b < 256 := h b (by simp)
    have hc : c < 256 := h c (by simp)
    have hrest : ∀ x ∈ rest, x < 256 := fun x hx => h x (by simp [hx])
    have hv1 := b64Val_b64Char (a / 4) (by omega)
    have hv2 := b64Val_b64Char (a % 4 * 16 + b / 16) (by omega)
    have hv3 := b64Val_b64Char (b % 16 * 4 + c / 64) (by omega)
    have hv4 := b64Val_b64Char (c % 64) (by omega)
    have hne := b64Char_ne_pad (c % 64) (by omega)
    simp only [b64EncodeBytes, b64DecodeChars, hv1, hv2, hv3, hv4,
      if_neg hne, ih hrest]
    have e1 : a / 4 * 4 + (a % 4 * 16 + b / 16) / 16 = a := by omega
    have e2 : (a % 4 * 16 + b / 16) % 16 * 16 + (b % 16 * 4 + c / 64) / 4 = b := by
      omega
    have e3 : (b % 16 * 4 + c / 64) % 4 * 64 + c % 64 = c := by omega
    rw [e1, e2, e3]

/-- Every byte of the serialized PNG stream of a bitmap with byte-valued
pixels is a byte. -/
theorem pngSave_bytes_lt (b : Bitmap) (h : ∀ x ∈ b.pixels, x < 256) :
    ∀ x ∈ pngSave b, x < 256 := by
  intro x hx
  simp only [pngSave] at hx
  rcases List.mem_append.1 hx with hx1 | hx1
  · rcases List.mem_append.1 hx1 with hx2 | hx2
    · rcases List.mem_append.1 hx2 with hx3 | hx3
      · simp only [pngSignature, List.mem_cons, List.not_mem_nil, or_false] at hx3
        rcases hx3 with h1 | h1 | h1 | h1 | h1 | h1 | h1 | h1 <;> omega
      · simp only [be32, List.mem_cons, List.not_mem_nil, or_false] at hx3
        rcases hx3 with h1 | h1 | h1 | h1 <;> omega
    · simp only [be32, List.mem_cons, List.not_mem_nil, or_false] at hx2
      rcases hx2 with h1 | h1 | h1 | h1 <;> omega
  · exact h x hx1

/-- Loading the serialized PNG stream of a valid bitmap recovers the
bitmap pixel-identically. -/
theorem pngLoad_pngSave (b : Bitmap) (h : b.Valid) : pngLoad (pngSave b) = some b := by
  obtain ⟨w, ht, px⟩ := b
  obtain ⟨hw, hh, hlen, hpix⟩ := h
  simp only at hw hh hlen hpix
  simp only [pngSave, pngSignature, be32, List.cons_append, List.nil_append,
    pngLoad]
  have ew : w / 16777216 % 256 * 16777216 + w / 65536 % 256 * 65536 +
      w / 256 % 256 * 256 + w % 256 = w := by omega
  have eh : ht / 16777216 % 256 * 16777216 + ht / 65536 % 256 * 65536 +
      ht / 256 % 256 * 256 + ht % 256 = ht := by omega
  rw [ew, eh]
  rw [if_pos]
  exact ⟨by omega, by omega, by omega, by omega, by omega, by omega, by omega,
    by omega, hlen, hpix⟩

/-! ## Shape lemmas for the two query functions -/

/-- Trace of the generate step: exactly the two calls, list-models first. -/
theorem openaiGenerate_trace (w : OpenAIWorld) (req : ChatRequest) :
    (openaiGenerate w req).2 = [.listModels, .chatCreate req] := by
  unfold openaiGenerate
  split
  · rfl
  · split <;> rfl

/-- The generate step never raises the explicitly constructed
model-validation LookupError (the one carrying an available-models
list); it can, however, surface the bare IndexError of an empty choice
list, which is of lookup kind. -/
theorem openaiGenerate_no_lookup (w : OpenAIWorld) (req : ChatRequest)
    (m : String) (av : List String) :
    (openaiGenerate w req).1 ≠ .error (.lookupError m av) := by
  unfold openaiGenerate
  split
  · simp
  · split <;> simp

/-- A lookup-kind error of the generate step is exactly the re-raised
IndexError of an empty choice list. -/
theorem openaiGenerate_lookupKind (w : OpenAIWorld) (req : ChatRequest)
    (err : PyError) (hres : (openaiGenerate w req).1 = .error err)
    (hk : err.isLookup = true) :
    err = .indexError "list index out of range" := by
  revert hres
  unfold openaiGenerate
  split
  · intro hres
    simp only [Except.error.injEq] at hres
    subst hres
    simp [PyError.isLookup] at hk
  · split
    · intro hres
      simp only [Except.error.injEq] at hres
      exact hres.symm
    · intro hres
      simp at hres

/-- A result carrying the explicitly constructed model-validation
LookupError (the constructor with the available-models list) can only
come from the validation step: the catalog was fetched, the model is not
in it, and the message and attached list are built from that catalog. -/
theorem openai_lookup_inversion (w : OpenAIWorld) (img : PILImage)
    (prompt model : String) (max_tokens : Nat) (m : String) (av : List String)
    (hres : (get_openai_output w img prompt model max_tokens).1
      = .error (.lookupError m av)) :
    ∃ cat, w.listModelsData = .ok cat ∧ model ∉ cat ∧
      m = unsupportedModelMsg model cat ∧ av = cat := by
  unfold get_openai_output at hres
  split at hres
  · simp at hres
  · split at hres
    · simp at hres
    · split at hres
      · simp at hres
      · rename_i cat hcat
        split at hres
        · rename_i hm
          simp only [Except.error.injEq, PyError.lookupError.injEq] at hres
          exact ⟨cat, hcat, hm, hres.1.symm, hres.2.symm⟩
        · split at hres
          · simp at hres
          · exact absurd hres (openaiGenerate_no_lookup _ _ _ _)

/-- A lookup-kind error escaping `get_openai_output` (one the
`except LookupError` clause re-raised unwrapped) is either the
model-validation LookupError carrying the fetched catalog, or the bare
IndexError of an empty choice list. -/
theorem openai_lookupKind_inversion (w : OpenAIWorld) (img : PILImage)
    (prompt model : String) (max_tokens : Nat) (err : PyError)
    (hres : (get_openai_output w img prompt model max_tokens).1 = .error err)
    (hk : err.isLookup = true) :
    (∃ cat, w.listModelsData = .ok cat ∧ model ∉ cat ∧
      err = .lookupError (unsupportedModelMsg model cat) cat)
    ∨ err = .indexError "list index out of range" := by
  unfold get_openai_output at hres
  split at hres
  · simp only [Except.error.injEq] at hres
    subst hres
    simp [PyError.isLookup] at hk
  · split at hres
    · simp only [Except.error.injEq] at hres
      subst hres
      simp [PyError.isLookup] at hk
    · split at hres
      · simp only [Except.error.injEq] at hres
        subst hres
        simp [PyError.isLookup] at hk
      · rename_i cat hcat
        split at hres
        · rename_i hm
          simp only [Except.error.injEq] at hres
          exact Or.inl ⟨cat, hcat, hm, hres.symm⟩
        · split at hres
          · simp only [Except.error.injEq] at hres
            subst hres
            simp [PyError.isLookup] at hk
          · exact Or.inr (openaiGenerate_lookupKind _ _ _ hres hk)

/-- Trace and state of the configured Gemini body: the installed
configuration is kept, and the trace is the list-models call alone or
followed by the generate-content call. -/
theorem geminiConfigured_trace (w : GeminiWorld) (cfg : GenaiConfig)
    (img : PILImage) (prompt model : String) :
    (geminiConfigured w cfg img prompt model).2.1 = some cfg ∧
      ((geminiConfigured w cfg img prompt model).2.2 = [.listModels] ∨
        (geminiConfigured w cfg img prompt model).2.2
          = [.listModels, .generateContent model prompt img]) := by
  unfold geminiConfigured
  split
  · exact ⟨rfl, Or.inl rfl⟩
  · split
    · exact ⟨rfl, Or.inl rfl⟩
    · split
      · exact ⟨rfl, Or.inr rfl⟩
      · exact ⟨rfl, Or.inr rfl⟩

/-- A LookupError result of the configured Gemini body can only be the
model validation failure. -/
theorem gemini_lookup_inversion (w : GeminiWorld) (cfg : GenaiConfig)
    (img : PILImage) (prompt model : String) (m : String) (av : List String)
    (hres : (geminiConfigured w cfg img prompt model).1
      = .error (.lookupError m av)) :
    ∃ cat, w.listModels cfg = .ok cat ∧ model ∉ cat ∧
      m = unsupportedModelMsg model cat ∧ av = cat := by
  unfold geminiConfigured at hres
  split at hres
  · simp at hres
  · rename_i cat hcat
    split at hres
    · rename_i hm
      simp only [Except.error.injEq, PyError.lookupError.injEq] at hres
      exact ⟨cat, hcat, hm, hres.1.symm, hres.2.symm⟩
    · split at hres
      · simp at hres
      · simp at hres

/-- A lookup-kind error of the configured Gemini body can only be the
model-validation LookupError: the Gemini path has no subscript, so no
IndexError can arise. -/
theorem gemini_lookupKind_inversion (w : GeminiWorld) (cfg : GenaiConfig)
    (img : PILImage) (prompt model : String) (err : PyError)
    (hres : (geminiConfigured w cfg img prompt model).1 = .error err)
    (hk : err.isLookup = true) :
    ∃ cat, w.listModels cfg = .ok cat ∧ model ∉ cat ∧
      err = .lookupError (unsupportedModelMsg model cat) cat := by
  unfold geminiConfigured at hres
  split at hres
  · simp only [Except.error.injEq] at hres
    subst hres
    simp [PyError.isLookup] at hk
  · rename_i cat hcat
    split at hres
    · rename_i hm
      simp only [Except.error.injEq] at hres
      exact ⟨cat, hcat, hm, hres.symm⟩
    · split at hres
      · simp only [Except.error.injEq] at hres
        subst hres
        simp [PyError.isLookup] at hk
      · simp at hres

/-! ## Concrete worlds used to exercise the theorems -/

/-- Environment with no variables set. -/
def emptyEnv : String → Option String := fun _ => none

/-- Environment holding exactly one variable. -/
def envWith (k v : String) : String → Option String :=
  fun q => if q = k then some v else none

/-- Sample bitmap: one black pixel. -/
def sampleBitmap : Bitmap := ⟨1, 1, [0, 0, 0]⟩

/-- Provider-A world: credential set, catalog m1 m2, reply "hello". -/
def sampleOpenAIWorld : OpenAIWorld :=
  ⟨envWith "OPENAI_API_KEY" "sk-test", .ok ["m1", "m2"],
    fun _ => .ok ⟨[⟨⟨some "hello"⟩⟩]⟩⟩

/-- Provider-B world: credential set, catalog m1 m2, reply "hello". -/
def sampleGeminiWorld : GeminiWorld :=
  ⟨envWith "GOOGLE_API_KEY" "g-test", fun _ => .ok ["m1", "m2"],
    fun _ _ _ _ => .ok "hello"⟩

/-- Provider-A world with no credential in the environment. -/
def noKeyOpenAIWorld : OpenAIWorld :=
  ⟨emptyEnv, .ok ["m1"], fun _ => .ok ⟨[⟨⟨some "hello"⟩⟩]⟩⟩

/-- Provider-B world with no credential in the environment. -/
def noKeyGeminiWorld : GeminiWorld :=
  ⟨emptyEnv, fun _ => .ok ["m1"], fun _ _ _ _ => .ok "hello"⟩

/-- Provider-A world: credential set, catalog m1, and a generate-content
call that returns a response with zero choices. -/
def emptyChoicesWorld : OpenAIWorld :=
  ⟨envWith "OPENAI_API_KEY" "sk-test", .ok ["m1"], fun _ => .ok ⟨[]⟩⟩

/-- Provider-A world whose generate-content call raises "boom". -/
def failingOpenAIWorld : OpenAIWorld :=
  ⟨envWith "OPENAI_API_KEY" "sk-test", .ok ["m1"], fun _ => .error "boom"⟩

/-- Provider-B world whose generate-content call raises "boom". -/
def failingGeminiWorld : GeminiWorld :=
  ⟨envWith "GOOGLE_API_KEY" "g-test", fun _ => .ok ["m1"],
    fun _ _ _ _ => .error "boom"⟩

/-! ## Claims -/

/-- C3: for either provider, when the credential is absent from the
environment the call raises the configuration error (EnvironmentError)
and performs zero network calls (empty trace), so neither the model-list
call nor the generate-content call is attempted. -/
theorem claim3_missing_credential_no_calls (wo : OpenAIWorld) (wg : GeminiWorld)
    (st : Option GenaiConfig) (img : PILImage) (prompt model : String)
    (max_tokens : Nat)
    (ho : wo.env "OPENAI_API_KEY" = none) (hg : wg.env "GOOGLE_API_KEY" = none) :
    get_openai_output wo img prompt model max_tokens
        = (.error (.environmentError openaiKeyMissingMsg), [])
      ∧ get_gemini_output st wg img prompt model
        = (.error (.environmentError geminiKeyMissingMsg), st, []) := by
  constructor
  · unfold get_openai_output; rw [ho]
  · unfold get_gemini_output; rw [hg]

/-- Witness for C3 at concrete no-credential worlds. -/
theorem claim3_witness :
    get_openai_output noKeyOpenAIWorld (PILImage.valid sampleBitmap) "p" "m1" 300
        = (.error (.environmentError openaiKeyMissingMsg), [])
      ∧ get_gemini_output none noKeyGeminiWorld (PILImage.valid sampleBitmap) "p" "m1"
        = (.error (.environmentError geminiKeyMissingMsg), none, []) :=
  claim3_missing_credential_no_calls noKeyOpenAIWorld noKeyGeminiWorld none
    (PILImage.valid sampleBitmap) "p" "m1" 300 rfl rfl

/-- C5: for every valid bitmap, encoding it with the image encoder, then
base64-decoding the resulting string, then PNG-decoding the resulting
bytes, yields the original bitmap pixel-identically. -/
theorem claim5_encode_roundtrip (b : Bitmap) (hv : b.Valid) (s : String)
    (hs : pil2base64 (PILImage.valid b) = .ok s) :
    (b64decodeString s).bind pngLoad = some b := by
  have hs2 : b64encodeString (pngSave b) = s := by
    simpa only [pil2base64, Except.ok.injEq] using hs
  subst hs2
  have hb := pngSave_bytes_lt b hv.2.2.2
  show (b64DecodeChars (b64EncodeBytes (pngSave b))).bind pngLoad = some b
  rw [b64_roundtrip _ hb]
  simpa using pngLoad_pngSave b hv

/-- Witness for C5 at a concrete one-pixel bitmap. -/
theorem claim5_witness :
    sampleBitmap.Valid
    ∧ (b64decodeString (b64encodeString (pngSave sampleBitmap))).bind pngLoad
        = some sampleBitmap :=
  ⟨by decide, claim5_encode_roundtrip sampleBitmap (by decide) _ rfl⟩

/-- C8: the image encoder returns the base64 text of the PNG encoding of
every serializable bitmap (the returned string base64-decodes back to the
PNG byte stream), and fails with the encoding error (a RuntimeError
wrapping the underlying message) on an image whose serialization
raises. -/
theorem claim8_encoder_contract (b : Bitmap) (e : String) :
    pil2base64 (PILImage.valid b) = .ok (b64encodeString (pngSave b))
    ∧ pil2base64 (PILImage.corrupt e)
      = .error (.runtimeError ("Failed to convert image to base64: " ++ e))
    ∧ (b.Valid → b64decodeString (b64encodeString (pngSave b)) = some (pngSave b)) := by
  refine ⟨rfl, rfl, fun hv => ?_⟩
  exact b64_roundtrip _ (pngSave_bytes_lt b hv.2.2.2)

/-- Witness for C8 at a concrete bitmap and a concrete corrupt image. -/
theorem claim8_witness :
    pil2base64 (PILImage.corrupt "bad mode")
      = .error (.runtimeError "Failed to convert image to base64: bad mode")
    ∧ b64decodeString (b64encodeString (pngSave sampleBitmap)) = some (pngSave sampleBitmap) := by
  have h := claim8_encoder_contract sampleBitmap "bad mode"
  exact ⟨h.2.1, h.2.2 (by decide)⟩

/-- C1 as stated is false on Provider A: with the credential present
and the requested model a member of the catalog, a generate-content
response with zero choices makes `response.choices[0]` raise IndexError
— an instance of Python\x27s LookupError, re-raised unwrapped by the
`except LookupError` clause of lines 92-93 — so a lookup-kind error does
surface on a model-in-catalog call. -/
theorem claim1_counterexample :
    emptyChoicesWorld.listModelsData = .ok ["m1"]
    ∧ "m1" ∈ (["m1"] : List String)
    ∧ (get_openai_output emptyChoicesWorld (PILImage.valid sampleBitmap)
        "p" "m1" 300).1 = .error (.indexError "list index out of range")
    ∧ (PyError.indexError "list index out of range").isLookup = true := by
  decide

/-- C1 amended: for either provider with the credential present, a
requested model not in the fetched catalog raises the model-validation
LookupError whose attached available-models list is exactly the fetched
catalog (and whose message embeds that list); a model that is in the
catalog never raises that model-validation LookupError, and the only
lookup-kind error that can still surface is, on Provider A, the bare
IndexError of an empty choice list; on Provider B no lookup-kind error
at all is raised for a model in the catalog. -/
theorem claim1_amended (wo : OpenAIWorld) (wg : GeminiWorld)
    (st : Option GenaiConfig) (img : PILImage) (prompt model : String)
    (max_tokens : Nat) (ko kg : String) (catO catG : List String)
    (ho : wo.env "OPENAI_API_KEY" = some ko) (ho2 : ko ≠ "")
    (hg : wg.env "GOOGLE_API_KEY" = some kg) (hg2 : kg ≠ "")
    (hco : wo.listModelsData = .ok catO)
    (hcg : wg.listModels ⟨kg, "rest"⟩ = .ok catG) :
    (model ∉ catO →
      (get_openai_output wo img prompt model max_tokens).1
        = .error (.lookupError (unsupportedModelMsg model catO) catO))
    ∧ (model ∈ catO →
      (∀ m av, (get_openai_output wo img prompt model max_tokens).1
        ≠ .error (.lookupError m av))
      ∧ ∀ err, (get_openai_output wo img prompt model max_tokens).1
          = .error err → err.isLookup = true →
          err = .indexError "list index out of range")
    ∧ (model ∉ catG →
      (get_gemini_output st wg img prompt model).1
        = .error (.lookupError (unsupportedModelMsg model catG) catG))
    ∧ (model ∈ catG → ∀ err,
      (get_gemini_output st wg img prompt model).1 = .error err →
        err.isLookup = false) := by
  refine ⟨fun hnm => ?_, fun hm => ⟨fun m av hres => ?_, fun err hres hk => ?_⟩,
    fun hnm => ?_, fun hm err hres => ?_⟩
  · unfold get_openai_output
    simp only [ho]
    rw [if_neg ho2]
    simp only [hco]
    rw [if_pos hnm]
  · obtain ⟨cat, hcat, hnm, _, _⟩ :=
      openai_lookup_inversion wo img prompt model max_tokens m av hres
    rw [hco] at hcat
    cases hcat
    exact hnm hm
  · rcases openai_lookupKind_inversion wo img prompt model max_tokens err hres hk
      with ⟨cat, hcat, hnm, _⟩ | h
    · rw [hco] at hcat
      cases hcat
      exact absurd hm hnm
    · exact h
  · unfold get_gemini_output
    simp only [hg]
    rw [if_neg hg2]
    unfold geminiConfigured
    simp only [hcg]
    rw [if_pos hnm]
  · by_contra hk
    simp only [Bool.not_eq_false] at hk
    unfold get_gemini_output at hres
    simp only [hg] at hres
    rw [if_neg hg2] at hres
    obtain ⟨cat, hcat, hnm, _⟩ :=
      gemini_lookupKind_inversion wg ⟨kg, "rest"⟩ img prompt model err hres hk
    rw [hcg] at hcat
    cases hcat
    exact hnm hm

/-- Witness for the amended C1: catalog m1 m2 and model m3 raise the
LookupError carrying that catalog, whose message is the exact f-string
of the source, for both providers. -/
theorem claim1_witness :
    (get_openai_output sampleOpenAIWorld (PILImage.valid sampleBitmap) "p" "m3" 300).1
      = .error (.lookupError (unsupportedModelMsg "m3" ["m1", "m2"]) ["m1", "m2"])
    ∧ (get_gemini_output none sampleGeminiWorld (PILImage.valid sampleBitmap) "p" "m3").1
      = .error (.lookupError (unsupportedModelMsg "m3" ["m1", "m2"]) ["m1", "m2"])
    ∧ unsupportedModelMsg "m3" ["m1", "m2"]
      = "Model \x27m3\x27 is not supported. Available models: [\x27m1\x27, \x27m2\x27]" := by
  have h := claim1_amended sampleOpenAIWorld sampleGeminiWorld none
    (PILImage.valid sampleBitmap) "p" "m3" 300 "sk-test" "g-test"
    ["m1", "m2"] ["m1", "m2"] (by decide) (by decide) (by decide) (by decide)
    rfl rfl
  exact ⟨h.1 (by decide), h.2.2.1 (by decide), by decide⟩

/-- C2 as stated is false: the empty-choices IndexError is also
re-raised without wrapping — it is a LookupError instance, caught and
re-raised bare by lines 92-93 — yet it is not the model-validation
UnsupportedModelError: it carries no catalog and its message is the bare
original, with no transport-wrapper prefix. -/
theorem claim2_counterexample :
    (get_openai_output emptyChoicesWorld (PILImage.valid sampleBitmap)
        "q" "m1" 300).1 = .error (.indexError "list index out of range")
    ∧ (PyError.indexError "list index out of range").isLookup = true
    ∧ (PyError.indexError "list index out of range").message
        = "list index out of range"
    ∧ PyError.indexError "list index out of range"
        ≠ .lookupError (unsupportedModelMsg "m1" ["m1"]) ["m1"] := by
  decide

/-- C2 amended: for either provider, an exception raised by the
underlying transport during the generate-content call is re-raised as a
RuntimeError whose message embeds the original message; the errors
re-raised without wrapping are exactly the lookup-kind ones — the
model-validation LookupError carrying the fetched catalog and, on
Provider A, the bare IndexError of an empty choice list, which the
except-LookupError clause also passes through unwrapped. -/
theorem claim2_amended (wo : OpenAIWorld) (wg : GeminiWorld)
    (st : Option GenaiConfig) (b : Bitmap) (img : PILImage)
    (prompt model : String) (max_tokens : Nat) (ko kg e1 e2 : String)
    (catO catG : List String)
    (ho : wo.env "OPENAI_API_KEY" = some ko) (ho2 : ko ≠ "")
    (hco : wo.listModelsData = .ok catO) (hmo : model ∈ catO)
    (hcc : wo.chatCreate (openaiRequest model prompt
      ("data:image/jpeg;base64," ++ b64encodeString (pngSave b)) max_tokens)
      = .error e1)
    (hg : wg.env "GOOGLE_API_KEY" = some kg) (hg2 : kg ≠ "")
    (hcg : wg.listModels ⟨kg, "rest"⟩ = .ok catG) (hmg : model ∈ catG)
    (hgc : wg.generateContent ⟨kg, "rest"⟩ model prompt img = .error e2) :
    (get_openai_output wo (PILImage.valid b) prompt model max_tokens).1
      = .error (.runtimeError ("Failed to generate OpenAI output: " ++ e1))
    ∧ (get_gemini_output st wg img prompt model).1
      = .error (.runtimeError ("Failed to generate Gemini output: " ++ e2))
    ∧ (∀ (wo2 : OpenAIWorld) (img2 : PILImage) (p2 m2 : String) (t2 : Nat)
        (err : PyError),
        (get_openai_output wo2 img2 p2 m2 t2).1 = .error err →
        err.isLookup = true →
        (∃ cat, wo2.listModelsData = .ok cat ∧ m2 ∉ cat ∧
          err = .lookupError (unsupportedModelMsg m2 cat) cat)
        ∨ err = .indexError "list index out of range")
    ∧ (∀ (wg2 : GeminiWorld) (cfg : GenaiConfig) (img2 : PILImage)
        (p2 m2 : String) (err : PyError),
        (geminiConfigured wg2 cfg img2 p2 m2).1 = .error err →
        err.isLookup = true →
        ∃ cat, wg2.listModels cfg = .ok cat ∧ m2 ∉ cat ∧
          err = .lookupError (unsupportedModelMsg m2 cat) cat) := by
  refine ⟨?_, ?_, ?_, ?_⟩
  · unfold get_openai_output
    simp only [ho]
    rw [if_neg ho2]
    simp only [hco]
    rw [if_neg (not_not_intro hmo)]
    simp only [pil2base64]
    unfold openaiGenerate
    simp only [hcc]
  · unfold get_gemini_output
    simp only [hg]
    rw [if_neg hg2]
    unfold geminiConfigured
    simp only [hcg]
    rw [if_neg (not_not_intro hmg)]
    simp only [hgc]
  · exact fun wo2 img2 p2 m2 t2 err hres hk =>
      openai_lookupKind_inversion wo2 img2 p2 m2 t2 err hres hk
  · exact fun wg2 cfg img2 p2 m2 err hres hk =>
      gemini_lookupKind_inversion wg2 cfg img2 p2 m2 err hres hk

/-- Witness for the amended C2 at worlds whose generate-content call
raises "boom". -/
theorem claim2_witness :
    (get_openai_output failingOpenAIWorld (PILImage.valid sampleBitmap) "p" "m1" 300).1
      = .error (.runtimeError "Failed to generate OpenAI output: boom")
    ∧ (get_gemini_output none failingGeminiWorld (PILImage.valid sampleBitmap) "p" "m1").1
      = .error (.runtimeError "Failed to generate Gemini output: boom") := by
  have h := claim2_amended failingOpenAIWorld failingGeminiWorld none
    sampleBitmap (PILImage.valid sampleBitmap) "p" "m1" 300 "sk-test" "g-test"
    "boom" "boom" ["m1"] ["m1"] (by decide) (by decide) rfl (by decide) rfl
    (by decide) (by decide) rfl (by decide) rfl
  exact ⟨h.1, h.2.1⟩

/-- C4: for either provider, when the credential is present, the model
is in the catalog, and the generate-content call succeeds, the function
returns exactly the provider reply text: the first choice message
content (possibly empty or None, with no retry) for Provider A, the
generated text field for Provider B, with no modification. -/
theorem claim4_returns_verbatim (wo : OpenAIWorld) (wg : GeminiWorld)
    (st : Option GenaiConfig) (b : Bitmap) (img : PILImage)
    (prompt model : String) (max_tokens : Nat) (ko kg : String)
    (catO catG : List String) (resp : ChatResponse) (choice : ChatChoice)
    (tail : List ChatChoice) (out : String)
    (ho : wo.env "OPENAI_API_KEY" = some ko) (ho2 : ko ≠ "")
    (hco : wo.listModelsData = .ok catO) (hmo : model ∈ catO)
    (hcc : wo.chatCreate (openaiRequest model prompt
      ("data:image/jpeg;base64," ++ b64encodeString (pngSave b)) max_tokens)
      = .ok resp)
    (hch : resp.choices = choice :: tail)
    (hg : wg.env "GOOGLE_API_KEY" = some kg) (hg2 : kg ≠ "")
    (hcg : wg.listModels ⟨kg, "rest"⟩ = .ok catG) (hmg : model ∈ catG)
    (hgc : wg.generateContent ⟨kg, "rest"⟩ model prompt img = .ok out) :
    (get_openai_output wo (PILImage.valid b) prompt model max_tokens).1
      = .ok choice.message.content
    ∧ (get_gemini_output st wg img prompt model).1 = .ok out := by
  constructor
  · unfold get_openai_output
    simp only [ho]
    rw [if_neg ho2]
    simp only [hco]
    rw [if_neg (not_not_intro hmo)]
    simp only [pil2base64]
    unfold openaiGenerate
    simp only [hcc, hch]
  · unfold get_gemini_output
    simp only [hg]
    rw [if_neg hg2]
    unfold geminiConfigured
    simp only [hcg]
    rw [if_neg (not_not_intro hmg)]
    simp only [hgc]

/-- Witness for C4: the stubbed reply "hello" is returned unmodified by
both providers. -/
theorem claim4_witness :
    (get_openai_output sampleOpenAIWorld (PILImage.valid sampleBitmap) "p" "m1" 300).1
      = .ok (some "hello")
    ∧ (get_gemini_output none sampleGeminiWorld (PILImage.valid sampleBitmap) "p" "m1").1
      = .ok "hello" := by
  have h := claim4_returns_verbatim sampleOpenAIWorld sampleGeminiWorld none
    sampleBitmap (PILImage.valid sampleBitmap) "p" "m1" 300 "sk-test" "g-test"
    ["m1", "m2"] ["m1", "m2"] ⟨[⟨⟨some "hello"⟩⟩]⟩ ⟨⟨some "hello"⟩⟩ [] "hello"
    (by decide) (by decide) rfl (by decide) rfl rfl (by decide) (by decide)
    rfl (by decide) rfl
  exact ⟨h.1, h.2⟩

/-- C6: every Provider-A call that reaches the generate step submits the
single-turn user request whose content is the text part holding the
prompt followed by the image part holding the data URI of the base64 PNG
encoding of the bitmap, carrying the caller max-token count; a call that
omits it carries 300. -/
theorem claim6_request_shape (wo : OpenAIWorld) (b : Bitmap)
    (prompt model : String) (max_tokens : Nat) (ko : String)
    (catO : List String)
    (ho : wo.env "OPENAI_API_KEY" = some ko) (ho2 : ko ≠ "")
    (hco : wo.listModelsData = .ok catO) (hmo : model ∈ catO) :
    (get_openai_output wo (PILImage.valid b) prompt model max_tokens).2
      = [.listModels, .chatCreate ⟨model,
          [⟨"user", [ContentPart.text prompt, ContentPart.imagePart
            ("data:image/jpeg;base64," ++ b64encodeString (pngSave b))]⟩],
          max_tokens⟩]
    ∧ (get_openai_output wo (PILImage.valid b) prompt model).2
      = [.listModels, .chatCreate ⟨model,
          [⟨"user", [ContentPart.text prompt, ContentPart.imagePart
            ("data:image/jpeg;base64," ++ b64encodeString (pngSave b))]⟩],
          300⟩] := by
  constructor
  · unfold get_openai_output
    simp only [ho]
    rw [if_neg ho2]
    simp only [hco]
    rw [if_neg (not_not_intro hmo)]
    simp only [pil2base64]
    rw [openaiGenerate_trace]
    rfl
  · unfold get_openai_output
    simp only [ho]
    rw [if_neg ho2]
    simp only [hco]
    rw [if_neg (not_not_intro hmo)]
    simp only [pil2base64]
    rw [openaiGenerate_trace]
    rfl

/-- Witness for C6 at the sample world and bitmap. -/
theorem claim6_witness :
    (get_openai_output sampleOpenAIWorld (PILImage.valid sampleBitmap) "p" "m1" 42).2
      = [.listModels, .chatCreate ⟨"m1",
          [⟨"user", [ContentPart.text "p", ContentPart.imagePart
            ("data:image/jpeg;base64," ++ b64encodeString (pngSave sampleBitmap))]⟩],
          42⟩] :=
  (claim6_request_shape sampleOpenAIWorld sampleBitmap "p" "m1" 42 "sk-test"
    ["m1", "m2"] (by decide) (by decide) rfl (by decide)).1

/-- C10: every Provider-A call that reaches the generate step declares
MIME type image/jpeg in the image data URI, while the embedded payload
is the base64 PNG encoding of the bitmap: it decodes to the PNG byte
stream, which starts with the PNG signature, never with the two JPEG
start-of-image bytes the declared type would demand. -/
theorem claim10_mime_mismatch (wo : OpenAIWorld) (b : Bitmap)
    (prompt model : String) (max_tokens : Nat) (ko : String)
    (catO : List String)
    (ho : wo.env "OPENAI_API_KEY" = some ko) (ho2 : ko ≠ "")
    (hco : wo.listModelsData = .ok catO) (hmo : model ∈ catO)
    (hv : b.Valid) :
    (get_openai_output wo (PILImage.valid b) prompt model max_tokens).2
      = [.listModels, .chatCreate (openaiRequest model prompt
          ("data:image/jpeg;base64," ++ b64encodeString (pngSave b)) max_tokens)]
    ∧ b64decodeString (b64encodeString (pngSave b)) = some (pngSave b)
    ∧ (pngSave b).take 8 = pngSignature
    ∧ pngSignature.take 2 ≠ [255, 216] := by
  refine ⟨?_, ?_, ?_, by decide⟩
  · unfold get_openai_output
    simp only [ho]
    rw [if_neg ho2]
    simp only [hco]
    rw [if_neg (not_not_intro hmo)]
    simp only [pil2base64]
    rw [openaiGenerate_trace]
  · exact b64_roundtrip _ (pngSave_bytes_lt b hv.2.2.2)
  · rfl

/-- Witness for C10 at the sample world and bitmap. -/
theorem claim10_witness :
    (get_openai_output sampleOpenAIWorld (PILImage.valid sampleBitmap) "p" "m1" 300).2
      = [.listModels, .chatCreate (openaiRequest "m1" "p"
          ("data:image/jpeg;base64," ++ b64encodeString (pngSave sampleBitmap)) 300)]
    ∧ b64decodeString (b64encodeString (pngSave sampleBitmap))
      = some (pngSave sampleBitmap)
    ∧ (pngSave sampleBitmap).take 8 = pngSignature := by
  have h := claim10_mime_mismatch sampleOpenAIWorld sampleBitmap "p" "m1" 300
    "sk-test" ["m1", "m2"] (by decide) (by decide) rfl (by decide) (by decide)
  exact ⟨h.1, h.2.1, h.2.2.1⟩

/-- On a successful Provider-A call the trace is exactly the model-list
call followed by the generate call. -/
theorem openai_ok_trace (w : OpenAIWorld) (img : PILImage)
    (prompt model : String) (max_tokens : Nat) (out : Option String)
    (h : (get_openai_output w img prompt model max_tokens).1 = .ok out) :
    ∃ req, (get_openai_output w img prompt model max_tokens).2
      = [.listModels, .chatCreate req] := by
  revert h
  unfold get_openai_output
  split
  · intro h; simp at h
  · split
    · intro h; simp at h
    · split
      · intro h; simp at h
      · split
        · intro h; simp at h
        · split
          · intro h; simp at h
          · intro h; exact ⟨_, openaiGenerate_trace _ _⟩

/-- On a successful Provider-B call the trace is exactly the model-list
call followed by the generate call. -/
theorem geminiConfigured_ok_trace (w : GeminiWorld) (cfg : GenaiConfig)
    (img : PILImage) (prompt model out : String)
    (h : (geminiConfigured w cfg img prompt model).1 = .ok out) :
    (geminiConfigured w cfg img prompt model).2.2
      = [.listModels, .generateContent model prompt img] := by
  revert h
  unfold geminiConfigured
  split
  · intro h; simp at h
  · split
    · intro h; simp at h
    · split
      · intro h; simp at h
      · intro h; rfl

/-- C9: every invocation of either provider follows the linear sequence
credential check, catalog fetch, model check, encode and transmit,
extract: the trace is always a prefix of the two-call sequence with the
model-list call first — so the generate call never precedes the catalog
fetch, the catalog is re-fetched by each invocation (the embedding holds
no cache between calls), and a successful call performs exactly the two
outbound calls in order. -/
theorem claim9_call_sequence (wo : OpenAIWorld) (wg : GeminiWorld)
    (st : Option GenaiConfig) (img : PILImage) (prompt model : String)
    (max_tokens : Nat) :
    ((get_openai_output wo img prompt model max_tokens).2 = []
      ∨ (get_openai_output wo img prompt model max_tokens).2 = [.listModels]
      ∨ ∃ req, (get_openai_output wo img prompt model max_tokens).2
          = [.listModels, .chatCreate req])
    ∧ (∀ out, (get_openai_output wo img prompt model max_tokens).1 = .ok out →
        ∃ req, (get_openai_output wo img prompt model max_tokens).2
          = [.listModels, .chatCreate req])
    ∧ ((get_gemini_output st wg img prompt model).2.2 = []
      ∨ (get_gemini_output st wg img prompt model).2.2 = [.listModels]
      ∨ (get_gemini_output st wg img prompt model).2.2
          = [.listModels, .generateContent model prompt img])
    ∧ (∀ out, (get_gemini_output st wg img prompt model).1 = .ok out →
        (get_gemini_output st wg img prompt model).2.2
          = [.listModels, .generateContent model prompt img]) := by
  refine ⟨?_, fun out h => openai_ok_trace wo img prompt model max_tokens out h,
    ?_, ?_⟩
  · unfold get_openai_output
    split
    · exact Or.inl rfl
    · split
      · exact Or.inl rfl
      · split
        · exact Or.inr (Or.inl rfl)
        · split
          · exact Or.inr (Or.inl rfl)
          · split
            · exact Or.inr (Or.inl rfl)
            · exact Or.inr (Or.inr ⟨_, openaiGenerate_trace _ _⟩)
  · unfold get_gemini_output
    split
    · exact Or.inl rfl
    · split
      · exact Or.inl rfl
      · rcases (geminiConfigured_trace wg _ img prompt model).2 with h | h
        · exact Or.inr (Or.inl h)
        · exact Or.inr (Or.inr h)
  · intro out
    unfold get_gemini_output
    split
    · intro h; simp at h
    · split
      · intro h; simp at h
      · intro h; exact geminiConfigured_ok_trace wg _ img prompt model out h

/-- Witness for C9 at the sample worlds: each successful call performs
exactly the two calls, list-models first. -/
theorem claim9_witness :
    (∃ req, (get_openai_output sampleOpenAIWorld (PILImage.valid sampleBitmap)
        "p" "m1" 300).2 = [OpenAICall.listModels, OpenAICall.chatCreate req])
    ∧ (get_gemini_output none sampleGeminiWorld (PILImage.valid sampleBitmap)
        "p" "m1").2.2
      = [GeminiCall.listModels,
          GeminiCall.generateContent "m1" "p" (PILImage.valid sampleBitmap)] := by
  have h := claim9_call_sequence sampleOpenAIWorld sampleGeminiWorld none
    (PILImage.valid sampleBitmap) "p" "m1" 300
  exact ⟨h.2.1 (some "hello") (by decide), h.2.2.2 "hello" (by decide)⟩

/-- C7 as stated is false on the Gemini side: a query call mutates the
module-global genai configuration.  Concretely, starting from the
unconfigured state, after a successful Provider-B call the global state
is no longer the initial one. -/
theorem claim7_counterexample :
    (get_gemini_output none sampleGeminiWorld (PILImage.valid sampleBitmap)
      "p" "m1").2.1 ≠ none := by decide

/-- C7 amended: a Provider-B call's result and trace never depend on the
prior module-global genai configuration, but the call mutates it:
whenever the credential check passes, the configuration after the call
is the one holding the environment credential and the rest transport,
whatever it was before; when the credential is absent the state is left
unchanged.  (Provider A constructs its own client per call and the
embedding carries no state for it.) -/
theorem claim7_amended (wg : GeminiWorld) (st st2 : Option GenaiConfig)
    (img : PILImage) (prompt model : String) :
    ((get_gemini_output st wg img prompt model).1
        = (get_gemini_output st2 wg img prompt model).1
      ∧ (get_gemini_output st wg img prompt model).2.2
        = (get_gemini_output st2 wg img prompt model).2.2)
    ∧ (∀ k, wg.env "GOOGLE_API_KEY" = some k → k ≠ "" →
        (get_gemini_output st wg img prompt model).2.1 = some ⟨k, "rest"⟩)
    ∧ (wg.env "GOOGLE_API_KEY" = none →
        (get_gemini_output st wg img prompt model).2.1 = st) := by
  refine ⟨?_, fun k hk hk2 => ?_, fun hk => ?_⟩
  · unfold get_gemini_output
    split
    · exact ⟨rfl, rfl⟩
    · split
      · exact ⟨rfl, rfl⟩
      · exact ⟨rfl, rfl⟩
  · unfold get_gemini_output
    simp only [hk]
    rw [if_neg hk2]
    exact (geminiConfigured_trace wg _ img prompt model).1
  · unfold get_gemini_output
    simp only [hk]

/-- Witness for the amended C7: with the stale configuration installed,
a call overwrites it with the fresh credential, and the call result does
not depend on the prior state. -/
theorem claim7_witness :
    (get_gemini_output none sampleGeminiWorld (PILImage.valid sampleBitmap)
        "p" "m1").1
      = (get_gemini_output (some ⟨"old", "grpc"⟩) sampleGeminiWorld
          (PILImage.valid sampleBitmap) "p" "m1").1
    ∧ (get_gemini_output (some ⟨"old", "grpc"⟩) sampleGeminiWorld
        (PILImage.valid sampleBitmap) "p" "m1").2.1
      = some ⟨"g-test", "rest"⟩ := by
  have h := claim7_amended sampleGeminiWorld none (some ⟨"old", "grpc"⟩)
    (PILImage.valid sampleBitmap) "p" "m1"
  have h2 := claim7_amended sampleGeminiWorld (some ⟨"old", "grpc"⟩) none
    (PILImage.valid sampleBitmap) "p" "m1"
  exact ⟨h.1.1, h2.2.1 "g-test" (by decide) (by decide)⟩
